import Mathlib

/-!
Shallow embedding of the sensor-dashboard core logic of
`src/Model/sensor2_5.py` (synthetic data generation, tabular
post-processing, real-time playback slicing and the rolling buffer,
and the session-state handlers that store a freshly fetched batch),
together with theorems settling the specification claims about it.

Modelling conventions:
  - Timestamps are minutes since an epoch that falls at midnight, so
    Python's `current_time.hour` becomes `t / 60 % 24`.
  - Python `random` draws are modelled by an explicit stream
    `σ : Nat → ℚ` of values (intended range `[0,1)`) together with a
    draw counter threaded through the computation, one increment per
    call to `random.uniform` / `random.random`, in source order.
  - Floating-point values are modelled as rationals; the literals
    `0.98` and `0.05` of the source become `98/100` and `1/20`.
  - Streamlit session state becomes explicit values: a missing key is
    `Option.none`, a present key `Option.some`.
-/

/-- One draw of Python `random.uniform(a, b)`: the value `a + (b - a) * u`
where `u` is the stream value at counter position `n`. -/
def uniformVal (σ : Nat → ℚ) (a b : ℚ) (n : Nat) : ℚ :=
  a + (b - a) * σ n

/-- One data point as built in `generate_simulated_data` (source lines
72-78): sensor id, timestamp, voltage, current and status string. -/
structure Reading where
  id : String
  timestamp : Nat
  voltage : ℚ
  current : ℚ
  status : String
deriving DecidableEq

/-- The built-in sensor ids substituted when none are supplied
(source line 41). -/
def defaultSensorIds : List String :=
  ["sensor-001", "sensor-002", "sensor-003"]

/-- Source lines 40-41: `if not sensor_ids: sensor_ids = [...]` — an
omitted (`None`) or empty list argument is replaced by the default set.
Both falsy cases are modelled by the empty list. -/
def effectiveIds (sensor_ids : List String) : List String :=
  if sensor_ids = [] then defaultSensorIds else sensor_ids

/-- Source lines 48-53: the `base_values` dict build loop. For each
sensor id in order, draw `voltage_base = uniform(110, 125)` then
`current_base = uniform(4, 8)` (two draws per id) and store them under
that id, later duplicates overwriting earlier entries as in a Python
dict. Returns the finished map and the advanced draw counter. -/
def mkBaseValues (σ : Nat → ℚ) :
    List String → Nat → (String → Option (ℚ × ℚ)) →
      (String → Option (ℚ × ℚ)) × Nat
  | [], n, m => (m, n)
  | sensor_id :: rest, n, m =>
      mkBaseValues σ rest (n + 2)
        (fun s => if s = sensor_id then
            some (uniformVal σ 110 125 n, uniformVal σ 4 8 (n + 1))
          else m s)

/-- Hour of day of a timestamp in minutes (`current_time.hour`). -/
def hourOf (t : Nat) : Nat := t / 60 % 24

/-- Source lines 57-80, loop body for one sensor at one timestamp:
voltage is `voltage_base + uniform(-5, 5)`, multiplied by `0.98` when
the hour is in `[18, 22]`; current is `current_base + uniform(-1, 1)`;
status is `"normal"` when `random.random() > 0.05`, else `"warning"`.
Three draws are consumed, at counter positions `n`, `n+1`, `n+2`.
The `getD (0, 0)` default is unreachable in `generate_simulated_data`
because every looped-over id was inserted into the map. -/
def readingAt (σ : Nat → ℚ) (base : String → Option (ℚ × ℚ))
    (t : Nat) (sensor_id : String) (n : Nat) : Reading :=
  let vb := ((base sensor_id).getD (0, 0)).1
  let cb := ((base sensor_id).getD (0, 0)).2
  let voltage0 := vb + uniformVal σ (-5) 5 n
  let voltage :=
    if 18 ≤ hourOf t ∧ hourOf t ≤ 22 then voltage0 * (98 / 100) else voltage0
  let cur := cb + uniformVal σ (-1) 1 (n + 1)
  let st := if 1 / 20 < σ (n + 2) then "normal" else "warning"
  ⟨sensor_id, t, voltage, cur, st⟩

/-- Inner loop of source lines 57-80: one reading per sensor id, in
list order, at a fixed timestamp, threading the draw counter. -/
def readingsForTime (σ : Nat → ℚ) (base : String → Option (ℚ × ℚ))
    (t : Nat) : List String → Nat → List Reading × Nat
  | [], n => ([], n)
  | sensor_id :: rest, n =>
      let r := readingAt σ base t sensor_id n
      let p := readingsForTime σ base t rest (n + 3)
      (r :: p.1, p.2)

/-- Outer loop of source lines 56-83: for each timestamp, append the
readings of all sensors, threading the draw counter across instants. -/
def genRows (σ : Nat → ℚ) (base : String → Option (ℚ × ℚ)) :
    List Nat → List String → Nat → List Reading
  | [], _, _ => []
  | t :: ts, ids, n =>
      let p := readingsForTime σ base t ids n
      p.1 ++ genRows σ base ts ids p.2

/-- Fuel-indexed unfolding of the `while current_time <= end_date` loop
(source lines 56 and 83): emit `t` and step to `t + interval` while
`t ≤ endT`. Fuel `endT + 1 - start` suffices for every
`interval ≥ 1`, since each iteration advances `t` by at least one. -/
def genTimesAux (endT interval : Nat) : Nat → Nat → List Nat
  | 0, _ => []
  | fuel + 1, t =>
      if t ≤ endT then t :: genTimesAux endT interval fuel (t + interval)
      else []

/-- The list of sample instants visited by the generation loop. -/
def timestamps (start endT interval : Nat) : List Nat :=
  genTimesAux endT interval (endT + 1 - start) start

/-- Source lines 24-86, `generate_simulated_data`: substitute default
sensor ids if none given, draw the per-sensor baselines, then emit one
reading per sensor per sample instant. -/
def generate_simulated_data (σ : Nat → ℚ) (start_date end_date : Nat)
    (sensor_ids : List String) (interval_minutes : Nat) : List Reading :=
  let ids := effectiveIds sensor_ids
  let p := mkBaseValues σ ids 0 (fun _ => none)
  genRows σ p.1 (timestamps start_date end_date interval_minutes) ids p.2

/-- One row of the processed DataFrame produced by
`process_sensor_data`: the reading's columns plus the derived `power`
column. Timestamp stays in minutes (the `pd.to_datetime` conversion is
the identity on this representation). -/
structure PRow where
  id : String
  timestamp : Nat
  voltage : ℚ
  current : ℚ
  power : ℚ
deriving DecidableEq

/-- Source lines 141-207, `process_sensor_data`: empty input gives an
empty frame; otherwise each row keeps its converted columns and gains
`power = voltage * current`. The per-column `try`/`except` blocks
cannot fire on inputs of the typed `Reading` shape, so the conversions
are identities here. -/
def process_sensor_data (data : List Reading) : List PRow :=
  if data = [] then []
  else data.map (fun r =>
    ⟨r.id, r.timestamp, r.voltage, r.current, r.voltage * r.current⟩)

/-- Insertion step of the timestamp sort. -/
def insertByTs (r : PRow) : List PRow → List PRow
  | [] => [r]
  | x :: xs =>
      if r.timestamp ≤ x.timestamp then r :: x :: xs
      else x :: insertByTs r xs

/-- Source line 224, `df.sort_values('timestamp')`: sort the frame by
timestamp (insertion sort; pandas leaves the order of equal timestamps
unspecified, so any timestamp sort is a faithful refinement). -/
def sortByTimestamp (df : List PRow) : List PRow :=
  df.foldr insertByTs []

/-- Source lines 210-242, `simulate_real_time_data`: with an empty
frame the function bare-`return`s `None` and leaves the session index
untouched. Otherwise it sorts by timestamp, reads the session index
(initialising a missing key to 0), resets it to 0 when it is out of
bounds, returns the slice `iloc[index : index + speed]`, and stores
`(index + speed) % len(df)` back into the session. The pair is
(returned value, session index after the call). -/
def simulate_real_time_data (df : List PRow) (simulation_speed : Nat)
    (simulation_index : Option Nat) : Option (List PRow) × Option Nat :=
  if df = [] then (none, simulation_index)
  else
    let sorted := sortByTimestamp df
    let index0 := simulation_index.getD 0
    let index := if df.length ≤ index0 then 0 else index0
    (some ((sorted.drop index).take simulation_speed),
     some ((index + simulation_speed) % df.length))

/-- Source line 259. -/
def MAX_BUFFER_SIZE : Nat := 100

/-- Source lines 245-269, `update_real_time_buffer`: a missing buffer
key is initialised to exactly the new slice (uncapped); otherwise the
buffer and the slice are concatenated and, when the result exceeds
`MAX_BUFFER_SIZE`, only the last `MAX_BUFFER_SIZE` rows
(`iloc[-MAX_BUFFER_SIZE:]`) are kept. Generic in the row type, as
`pd.concat` is. -/
def update_real_time_buffer {α : Type} (buf : Option (List α))
    (new_data : List α) : Option (List α) :=
  match buf with
  | none => some new_data
  | some b =>
      let combined := b ++ new_data
      some (if MAX_BUFFER_SIZE < combined.length then
          combined.drop (combined.length - MAX_BUFFER_SIZE)
        else combined)

/-- A whole run of the buffer: fold the appends over an initially
missing session key. -/
def runAppends {α : Type} (slices : List (List α)) : Option (List α) :=
  slices.foldl update_real_time_buffer none

/-- The last `MAX_BUFFER_SIZE` rows of a list (all of it when shorter). -/
def keepLast {α : Type} (l : List α) : List α :=
  l.drop (l.length - MAX_BUFFER_SIZE)

/-- Source lines 89-104, `fetch_all_sensor_data`: the `try` block runs
the generation, whose outcome (normal result or raised exception) is
the `Except` argument; the `except` arm logs and returns `[]`. -/
def fetch_all_sensor_data (gen : Except String (List Reading)) :
    List Reading :=
  match gen with
  | Except.ok d => d
  | Except.error _ => []

/-- Source lines 106-121, `fetch_sensor_data_by_id`: same shape, but
the `except` arm returns `None` (line 121), not an empty list. -/
def fetch_sensor_data_by_id (gen : Except String (List Reading)) :
    Option (List Reading) :=
  match gen with
  | Except.ok d => some d
  | Except.error _ => none

/-- Source lines 123-138, `fetch_sensor_data_in_range`: the `except`
arm returns `[]`. -/
def fetch_sensor_data_in_range (gen : Except String (List Reading)) :
    List Reading :=
  match gen with
  | Except.ok d => d
  | Except.error _ => []

/-- The slice of Streamlit session state touched by the fetch paths:
the cached processed batch, the playback index, the rolling buffer and
the last-refresh instant. Missing keys are `none`. -/
structure SessionState where
  sensor_data : List PRow
  simulation_index : Option Nat
  real_time_buffer : Option (List PRow)
  last_refresh : Nat
deriving DecidableEq

/-- Source lines 324-356, the Fetch Data button handler: store the
processed batch and refresh time, set `simulation_index` to 0 when the
key exists (leave it missing otherwise), and delete the
`real_time_buffer` key when it exists. -/
def fetchButtonHandler (newBatch : List PRow) (now : Nat)
    (s : SessionState) : SessionState :=
  ⟨newBatch, s.simulation_index.map (fun _ => 0), none, now⟩

/-- Source lines 380-404, the auto-refresh block: store the processed
batch and refresh time only; `simulation_index` and `real_time_buffer`
are not touched. -/
def autoRefreshHandler (newBatch : List PRow) (now : Nat)
    (s : SessionState) : SessionState :=
  ⟨newBatch, s.simulation_index, s.real_time_buffer, now⟩

/-- The evening window of source line 68: hour of day in `[18, 22]`. -/
def eveningHour (t : Nat) : Prop :=
  18 ≤ hourOf t ∧ hourOf t ≤ 22

instance (t : Nat) : Decidable (eveningHour t) := by
  unfold eveningHour; infer_instance

/-- The `voltage_base` drawn for a sensor id by a call of
`generate_simulated_data` with the given stream and id list. -/
def baseVoltageOf (σ : Nat → ℚ) (sensor_ids : List String)
    (sensor_id : String) : ℚ :=
  (((mkBaseValues σ (effectiveIds sensor_ids) 0 (fun _ => none)).1
      sensor_id).getD (0, 0)).1

/-- A concrete draw stream used to instantiate theorems: every draw
returns `1/2`. -/
def halfStream : Nat → ℚ := fun _ => 1 / 2

/-- A concrete 100-row batch (distinct ascending timestamps) used to
instantiate the playback scenario. -/
def scenarioBatch : List PRow :=
  (List.range 100).map (fun k => ⟨"s", k, 0, 0, 0⟩)

/-! ### Closed form of the sample-instant loop -/

lemma range_map_shift (t i m : Nat) :
    List.map (fun k => t + k * i) (List.range (m + 1)) =
      t :: List.map (fun k => t + i + k * i) (List.range m) := by
  rw [List.range_succ_eq_map]
  simp only [List.map_cons, List.map_map, Nat.zero_mul, Nat.add_zero]
  refine congrArg (t :: ·) (List.map_congr_left ?_)
  intro k _
  simp only [Function.comp_apply, Nat.succ_eq_add_one]
  ring

lemma genTimesAux_closed (endT i : Nat) (hi : 1 ≤ i) :
    ∀ fuel t, endT + 1 ≤ fuel + t →
      genTimesAux endT i fuel t =
        if t ≤ endT then
          (List.range ((endT - t) / i + 1)).map (fun k => t + k * i)
        else []
  | 0, t, hfuel => by
    have : ¬ t ≤ endT := by omega
    simp [genTimesAux, this]
  | fuel + 1, t, hfuel => by
    by_cases h : t ≤ endT
    · have ih := genTimesAux_closed endT i hi fuel (t + i) (by omega)
      rw [genTimesAux, if_pos h, if_pos h, ih]
      by_cases h2 : t + i ≤ endT
      · rw [if_pos h2]
        have hdiv : (endT - t) / i + 1 = ((endT - (t + i)) / i + 1) + 1 := by
          have h3 : endT - t = (endT - (t + i)) + i := by omega
          rw [h3, Nat.add_div_right _ (by omega)]
        rw [hdiv, range_map_shift, range_map_shift, range_map_shift]
      · rw [if_neg h2]
        have hdiv : (endT - t) / i = 0 := Nat.div_eq_of_lt (by omega)
        rw [hdiv]
        simp [List.range_succ]
    · rw [genTimesAux, if_neg h, if_neg h]

lemma timestamps_closed (start endT i : Nat) (hi : 1 ≤ i) :
    timestamps start endT i =
      if start ≤ endT then
        (List.range ((endT - start) / i + 1)).map (fun k => start + k * i)
      else [] := by
  exact genTimesAux_closed endT i hi (endT + 1 - start) start (by omega)

lemma timestamps_length (start endT i : Nat) (hi : 1 ≤ i) (h : start ≤ endT) :
    (timestamps start endT i).length = (endT - start) / i + 1 := by
  rw [timestamps_closed start endT i hi, if_pos h, List.length_map,
    List.length_range]

lemma timestamps_pairwise (start endT i : Nat) (hi : 1 ≤ i) :
    (timestamps start endT i).Pairwise (· ≤ ·) := by
  rw [timestamps_closed start endT i hi]
  by_cases h : start ≤ endT
  · rw [if_pos h]
    refine (List.pairwise_lt_range _).map _ ?_
    intro a b hab
    have : a * i ≤ b * i := Nat.mul_le_mul_right i (Nat.le_of_lt hab)
    omega
  · rw [if_neg h]; exact List.Pairwise.nil

/-! ### Structure of the generated rows -/

lemma readingAt_id (σ : Nat → ℚ) (base : String → Option (ℚ × ℚ))
    (t : Nat) (sensor_id : String) (n : Nat) :
    (readingAt σ base t sensor_id n).id = sensor_id := rfl

lemma readingAt_timestamp (σ : Nat → ℚ) (base : String → Option (ℚ × ℚ))
    (t : Nat) (sensor_id : String) (n : Nat) :
    (readingAt σ base t sensor_id n).timestamp = t := rfl

lemma readingAt_voltage (σ : Nat → ℚ) (base : String → Option (ℚ × ℚ))
    (t : Nat) (sensor_id : String) (n : Nat) :
    (readingAt σ base t sensor_id n).voltage =
      if eveningHour t then
        (((base sensor_id).getD (0, 0)).1 + uniformVal σ (-5) 5 n) * (98 / 100)
      else ((base sensor_id).getD (0, 0)).1 + uniformVal σ (-5) 5 n := by
  by_cases h : eveningHour t
  · rw [if_pos h]
    have h2 : 18 ≤ hourOf t ∧ hourOf t ≤ 22 := h
    simp [readingAt, if_pos h2]
  · rw [if_neg h]
    have h2 : ¬ (18 ≤ hourOf t ∧ hourOf t ≤ 22) := h
    simp [readingAt, if_neg h2]

lemma readingsForTime_pairs (σ : Nat → ℚ) (base : String → Option (ℚ × ℚ))
    (t : Nat) :
    ∀ (ids : List String) (n : Nat),
      (readingsForTime σ base t ids n).1.map (fun r => (r.timestamp, r.id)) =
        ids.map (fun sensor_id => (t, sensor_id))
  | [], n => rfl
  | sensor_id :: rest, n => by
    simp only [readingsForTime, List.map_cons, readingAt_timestamp,
      readingAt_id, readingsForTime_pairs σ base t rest (n + 3)]

lemma mem_readingsForTime (σ : Nat → ℚ) (base : String → Option (ℚ × ℚ))
    (t : Nat) :
    ∀ (ids : List String) (n : Nat) (r : Reading),
      r ∈ (readingsForTime σ base t ids n).1 →
        ∃ sensor_id n2, sensor_id ∈ ids ∧ r = readingAt σ base t sensor_id n2
  | [], n, r, hr => by simp [readingsForTime] at hr
  | sensor_id :: rest, n, r, hr => by
    simp only [readingsForTime, List.mem_cons] at hr
    rcases hr with hr | hr
    · exact ⟨sensor_id, n, List.mem_cons_self _ _, hr⟩
    · obtain ⟨s2, n2, hs2, hr2⟩ :=
        mem_readingsForTime σ base t rest (n + 3) r hr
      exact ⟨s2, n2, List.mem_cons_of_mem _ hs2, hr2⟩

lemma genRows_pairs (σ : Nat → ℚ) (base : String → Option (ℚ × ℚ))
    (ids : List String) :
    ∀ (ts : List Nat) (n : Nat),
      (genRows σ base ts ids n).map (fun r => (r.timestamp, r.id)) =
        ts.flatMap (fun t => ids.map (fun sensor_id => (t, sensor_id)))
  | [], n => rfl
  | t :: ts, n => by
    simp only [genRows, List.map_append, readingsForTime_pairs,
      genRows_pairs σ base ids ts _, List.flatMap_cons]

lemma mem_genRows (σ : Nat → ℚ) (base : String → Option (ℚ × ℚ))
    (ids : List String) :
    ∀ (ts : List Nat) (n : Nat) (r : Reading),
      r ∈ genRows σ base ts ids n →
        ∃ t sensor_id n2, t ∈ ts ∧ sensor_id ∈ ids ∧
          r = readingAt σ base t sensor_id n2
  | [], n, r, hr => by simp [genRows] at hr
  | t :: ts, n, r, hr => by
    simp only [genRows, List.mem_append] at hr
    rcases hr with hr | hr
    · obtain ⟨s2, n2, hs2, hr2⟩ := mem_readingsForTime σ base t ids n r hr
      exact ⟨t, s2, n2, List.mem_cons_self _ _, hs2, hr2⟩
    · obtain ⟨t2, s2, n2, ht2, hs2, hr2⟩ :=
        mem_genRows σ base ids ts _ r hr
      exact ⟨t2, s2, n2, List.mem_cons_of_mem _ ht2, hs2, hr2⟩

lemma genRows_length (σ : Nat → ℚ) (base : String → Option (ℚ × ℚ))
    (ids : List String) (ts : List Nat) (n : Nat) :
    (genRows σ base ts ids n).length = ids.length * ts.length := by
  have h := congrArg List.length (genRows_pairs σ base ids ts n)
  rw [List.length_map, List.length_flatMap] at h
  rw [h]
  clear h
  induction ts with
  | nil => simp
  | cons t ts ih =>
      simp only [List.map_cons, List.sum_cons, List.length_cons, ih,
        Function.comp_apply, List.length_map]
      ring

lemma genRows_timestamps (σ : Nat → ℚ) (base : String → Option (ℚ × ℚ))
    (ids : List String) (ts : List Nat) (n : Nat) :
    (genRows σ base ts ids n).map Reading.timestamp =
      ts.flatMap (fun t => List.replicate ids.length t) := by
  have h := congrArg (List.map Prod.fst) (genRows_pairs σ base ids ts n)
  rw [List.map_map] at h
  have h2 : (Prod.fst ∘ fun r : Reading => (r.timestamp, r.id)) =
      Reading.timestamp := rfl
  rw [h2] at h
  rw [h]
  simp only [List.map_flatMap]
  refine List.flatMap_congr ?_
  intro t _
  rw [List.map_map]
  exact List.map_const ids t

lemma genRows_timestamps_pairwise (σ : Nat → ℚ)
    (base : String → Option (ℚ × ℚ)) (ids : List String) (ts : List Nat)
    (n : Nat) (hts : ts.Pairwise (· ≤ ·)) :
    ((genRows σ base ts ids n).map Reading.timestamp).Pairwise (· ≤ ·) := by
  rw [genRows_timestamps, List.flatMap_def]
  rw [List.pairwise_flatten]
  refine ⟨?_, ?_⟩
  · intro l hl
    obtain ⟨t, _, rfl⟩ := List.mem_map.mp hl
    exact List.pairwise_replicate.mpr (Or.inr (le_refl t))
  · rw [List.pairwise_map]
    refine hts.imp_of_mem ?_
    intro a b _ _ hab
    intro x hx y hy
    rw [List.eq_of_mem_replicate hx, List.eq_of_mem_replicate hy]
    exact hab

/-! ### Rolling-buffer lemmas -/

lemma update_buffer_some {α : Type} (b s : List α) :
    update_real_time_buffer (some b) s = some (keepLast (b ++ s)) := by
  simp only [update_real_time_buffer, keepLast]
  by_cases h : MAX_BUFFER_SIZE < (b ++ s).length
  · rw [if_pos h]
  · rw [if_neg h]
    have hz : (b ++ s).length - MAX_BUFFER_SIZE = 0 := by omega
    rw [hz, List.drop_zero]

lemma keepLast_absorb {α : Type} (a s : List α) :
    keepLast (keepLast a ++ s) = keepLast (a ++ s) := by
  unfold keepLast
  rw [← List.drop_append_of_le_length (Nat.sub_le a.length MAX_BUFFER_SIZE),
    List.drop_drop, List.length_drop]
  have h : a.length - MAX_BUFFER_SIZE +
      ((a ++ s).length - (a.length - MAX_BUFFER_SIZE) - MAX_BUFFER_SIZE) =
        (a ++ s).length - MAX_BUFFER_SIZE := by
    rw [List.length_append]; omega
  rw [h]

lemma foldl_update_buffer {α : Type} :
    ∀ (rest : List (List α)) (c : List α),
      rest.foldl update_real_time_buffer (some (keepLast c)) =
        some (keepLast (c ++ rest.flatten))
  | [], c => by simp
  | s :: rest, c => by
    rw [List.foldl_cons, update_buffer_some, keepLast_absorb,
      foldl_update_buffer rest (c ++ s), List.flatten_cons,
      List.append_assoc]

lemma runAppends_eq {α : Type} (s1 s2 : List α) (rest : List (List α)) :
    runAppends (s1 :: s2 :: rest) =
      some (keepLast ((s1 :: s2 :: rest).flatten)) := by
  unfold runAppends
  rw [List.foldl_cons, List.foldl_cons]
  have h1 : update_real_time_buffer (none : Option (List α)) s1 = some s1 :=
    rfl
  rw [h1, update_buffer_some, foldl_update_buffer rest (s1 ++ s2)]
  rw [List.flatten_cons, List.flatten_cons, List.append_assoc]

lemma keepLast_length {α : Type} (l : List α) :
    (keepLast l).length = l.length - (l.length - MAX_BUFFER_SIZE) := by
  unfold keepLast
  exact List.length_drop _ _

lemma insertByTs_length (r : PRow) :
    ∀ l : List PRow, (insertByTs r l).length = l.length + 1
  | [] => rfl
  | x :: xs => by
    simp only [insertByTs]
    by_cases h : r.timestamp ≤ x.timestamp
    · rw [if_pos h]; rfl
    · rw [if_neg h]
      simp [insertByTs_length r xs]

lemma sortByTimestamp_length (df : List PRow) :
    (sortByTimestamp df).length = df.length := by
  unfold sortByTimestamp
  induction df with
  | nil => rfl
  | cons x xs ih => rw [List.foldr_cons, insertByTs_length, ih]; rfl

lemma process_sensor_data_power (data : List Reading) (row : PRow)
    (hrow : row ∈ process_sensor_data data) :
    row.power = row.voltage * row.current := by
  unfold process_sensor_data at hrow
  by_cases h : data = []
  · rw [if_pos h] at hrow; simp at hrow
  · rw [if_neg h] at hrow
    obtain ⟨r, _, rfl⟩ := List.mem_map.mp hrow
    rfl

/-! ### Claim C2: rolling-buffer capacity and contents -/

/-- C2. For every sequence of appends into the rolling buffer, after
any append beyond the first the buffer never exceeds
`MAX_BUFFER_SIZE = 100` rows, and once the cumulative appended rows
exceed 100 (with at least one prior append, that is, at least two
appends in total) the buffer holds exactly the most recently appended
100 rows in arrival order. -/
theorem rolling_buffer_capacity {α : Type} (slices : List (List α))
    (b : List α) (hrun : runAppends slices = some b)
    (h2 : 2 ≤ slices.length) :
    b.length ≤ MAX_BUFFER_SIZE ∧
      (MAX_BUFFER_SIZE < (slices.map List.length).sum →
        b.length = MAX_BUFFER_SIZE ∧
          b = slices.flatten.drop
              (slices.flatten.length - MAX_BUFFER_SIZE)) := by
  match slices, h2 with
  | s1 :: s2 :: rest, _ =>
    rw [runAppends_eq s1 s2 rest, Option.some_inj] at hrun
    subst hrun
    have hsum : ((s1 :: s2 :: rest).map List.length).sum =
        (s1 :: s2 :: rest).flatten.length :=
      (List.length_flatten _).symm
    constructor
    · rw [keepLast_length]; omega
    · intro hgt
      rw [hsum] at hgt
      refine ⟨?_, rfl⟩
      rw [keepLast_length]
      omega

/-- Witness for C2 at a concrete run: two appends of 60 rows each. -/
theorem rolling_buffer_capacity_witness :
    ((List.range 60 ++ List.range 60).drop 20).length ≤ MAX_BUFFER_SIZE ∧
      (MAX_BUFFER_SIZE <
          ([List.range 60, List.range 60].map List.length).sum →
        ((List.range 60 ++ List.range 60).drop 20).length =
            MAX_BUFFER_SIZE ∧
          (List.range 60 ++ List.range 60).drop 20 =
            [List.range 60, List.range 60].flatten.drop
              ([List.range 60, List.range 60].flatten.length -
                MAX_BUFFER_SIZE)) :=
  rolling_buffer_capacity [List.range 60, List.range 60]
    ((List.range 60 ++ List.range 60).drop 20) (by decide) (by decide)

/-! ### Claim C3: the playback advance step -/

/-- C3. For a non-empty batch and a step of at least 1, the advance
step of `simulate_real_time_data` first resets the cursor to 0 when it
is at or past the end of the batch, then returns the consecutive rows
of the timestamp-sorted batch starting at the (possibly reset) cursor,
truncated to at most `step` rows at the end of the batch, and stores
back the cursor `(cursor + step) % len(batch)` computed from the
possibly reset cursor. -/
theorem advance_spec (df : List PRow) (step : Nat) (cur : Option Nat)
    (hdf : df ≠ []) (hstep : 1 ≤ step) :
    (simulate_real_time_data df step cur).1 =
        some (((sortByTimestamp df).drop
          (if df.length ≤ cur.getD 0 then 0 else cur.getD 0)).take step) ∧
      (simulate_real_time_data df step cur).2 =
        some (((if df.length ≤ cur.getD 0 then 0 else cur.getD 0) + step)
          % df.length) ∧
      (((sortByTimestamp df).drop
          (if df.length ≤ cur.getD 0 then 0 else cur.getD 0)).take
            step).length =
        min step (df.length -
          (if df.length ≤ cur.getD 0 then 0 else cur.getD 0)) := by
  refine ⟨?_, ?_, ?_⟩
  · simp [simulate_real_time_data, hdf]
  · simp [simulate_real_time_data, hdf]
  · rw [List.length_take, List.length_drop, sortByTimestamp_length]

/-- Witness for C3 at the scenario input: 100 sorted rows, cursor 98,
step 5 — the slice is the two remaining rows 98 and 99 and the new
cursor is `(98 + 5) % 100 = 3`. -/
theorem advance_spec_witness :
    ((simulate_real_time_data scenarioBatch 5 (some 98)).1 =
        some (((sortByTimestamp scenarioBatch).drop
          (if scenarioBatch.length ≤ (some 98).getD 0 then 0
           else (some 98).getD 0)).take 5) ∧
      (simulate_real_time_data scenarioBatch 5 (some 98)).2 =
        some (((if scenarioBatch.length ≤ (some 98).getD 0 then 0
           else (some 98).getD 0) + 5) % scenarioBatch.length) ∧
      (((sortByTimestamp scenarioBatch).drop
          (if scenarioBatch.length ≤ (some 98).getD 0 then 0
           else (some 98).getD 0)).take 5).length =
        min 5 (scenarioBatch.length -
          (if scenarioBatch.length ≤ (some 98).getD 0 then 0
           else (some 98).getD 0))) ∧
      (simulate_real_time_data scenarioBatch 5 (some 98)).1 =
        some [⟨"s", 98, 0, 0, 0⟩, ⟨"s", 99, 0, 0, 0⟩] ∧
      (simulate_real_time_data scenarioBatch 5 (some 98)).2 = some 3 :=
  ⟨advance_spec scenarioBatch 5 (some 98) (by decide) (by decide),
   by with_unfolding_all rfl, by with_unfolding_all rfl⟩

/-! ### Claim C9: advance on an empty batch -/

/-- C9 counterexample. On the empty batch the function does not return
an empty slice paired with the cursor: it returns `None` (a bare
`return`), though the cursor is indeed left unchanged. -/
theorem advance_empty_counterexample :
    simulate_real_time_data ([] : List PRow) 3 (some 0) = (none, some 0) ∧
      simulate_real_time_data ([] : List PRow) 3 (some 0) ≠
        (some ([] : List PRow), some 0) := by
  refine ⟨rfl, ?_⟩
  intro h
  exact Option.noConfusion (congrArg Prod.fst h)

/-- C9 amended. For every cursor value and every step, advance on an
empty batch returns `None` — no slice at all, which the only caller
treats like an empty one — and leaves the cursor unchanged. -/
theorem advance_empty (step : Nat) (cur : Option Nat) :
    simulate_real_time_data [] step cur = (none, cur) := rfl

/-! ### Claim C4: cursor reset and buffer clearing on fetch -/

/-- C4 counterexample. The auto-refresh path fetches and stores a new
batch but neither resets the playback cursor to 0 nor clears the
rolling buffer: starting from cursor 5 and a one-row buffer, both
survive the auto-refresh unchanged. -/
theorem fetch_reset_counterexample :
    (autoRefreshHandler [] 1
        ⟨[], some 5, some [⟨"s", 0, 0, 0, 0⟩], 0⟩).simulation_index =
          some 5 ∧
      (autoRefreshHandler [] 1
        ⟨[], some 5, some [⟨"s", 0, 0, 0, 0⟩], 0⟩).real_time_buffer =
          some [⟨"s", 0, 0, 0, 0⟩] ∧
      (some 5 : Option Nat) ≠ some 0 ∧
      (some [(⟨"s", 0, 0, 0, 0⟩ : PRow)] : Option (List PRow)) ≠ none := by
  exact ⟨rfl, rfl, by decide, by simp⟩

/-- C4 amended. On the Fetch Data button path the playback cursor is
reset (set to 0 when the session key exists, left missing otherwise)
and the rolling buffer is cleared (its key deleted); the auto-refresh
path stores the new batch without touching either. -/
theorem fetch_reset_paths (newBatch : List PRow) (now : Nat)
    (s : SessionState) :
    (fetchButtonHandler newBatch now s).simulation_index =
        s.simulation_index.map (fun _ => 0) ∧
      (fetchButtonHandler newBatch now s).real_time_buffer = none ∧
      (autoRefreshHandler newBatch now s).simulation_index =
        s.simulation_index ∧
      (autoRefreshHandler newBatch now s).real_time_buffer =
        s.real_time_buffer :=
  ⟨rfl, rfl, rfl, rfl⟩

/-! ### Claim C5: error handling of the generation entry points -/

/-- C5 counterexample. A fault in the by-id entry point is caught but
surfaced as `None` (source line 121), not as an empty Series. -/
theorem fetch_by_id_error_counterexample :
    fetch_sensor_data_by_id (Except.error "boom") = none ∧
      fetch_sensor_data_by_id (Except.error "boom") ≠
        some ([] : List Reading) := by
  exact ⟨rfl, by simp [fetch_sensor_data_by_id]⟩

/-- C5 amended. Every internal fault raised during generation is
caught rather than propagated, but only the all-sensors and date-range
entry points surface it as an empty Series; the by-id entry point
surfaces it as `None`. Successful generation is passed through
unchanged by all three. -/
theorem fetch_error_defaults (e : String) (d : List Reading) :
    fetch_all_sensor_data (Except.error e) = [] ∧
      fetch_sensor_data_in_range (Except.error e) = [] ∧
      fetch_sensor_data_by_id (Except.error e) = none ∧
      fetch_all_sensor_data (Except.ok d) = d ∧
      fetch_sensor_data_in_range (Except.ok d) = d ∧
      fetch_sensor_data_by_id (Except.ok d) = some d :=
  ⟨rfl, rfl, rfl, rfl, rfl, rfl⟩

/-! ### Claim C1: reading count for a single entity -/

/-- C1 counterexample. With `start = 0`, `end = 10`, `interval = 15`
(span not divisible by the interval) a single-entity generation yields
1 reading, while the claimed formula `ceil((end - start) / interval) + 1`
gives 2. -/
theorem gen_count_ceil_counterexample :
    (generate_simulated_data halfStream 0 10 ["s1"] 15).length = 1 ∧
      (10 - 0 + 15 - 1) / 15 + 1 = 2 ∧ (1 : Nat) ≠ 2 := by
  refine ⟨?_, by norm_num, by decide⟩
  with_unfolding_all rfl

/-- C1 amended. For every `start ≤ end` and `interval ≥ 1`, a
single-entity generation yields `floor((end - start) / interval) + 1`
readings (which equals `ceil + 1` only when the interval divides the
span), whose timestamps are exactly the sample instants
`start, start + interval, ..., ≤ end` — in particular the scenario
0..60 by 15 yields 5 readings at minutes 0, 15, 30, 45, 60. -/
theorem gen_count_floor (σ : Nat → ℚ) (start endT interval : Nat)
    (e : String) (h : start ≤ endT) (hi : 1 ≤ interval) :
    (generate_simulated_data σ start endT [e] interval).length =
        (endT - start) / interval + 1 ∧
      (generate_simulated_data σ start endT [e] interval).map
          Reading.timestamp = timestamps start endT interval := by
  have hids : effectiveIds [e] = [e] := by simp [effectiveIds]
  simp only [generate_simulated_data, hids]
  constructor
  · rw [genRows_length, timestamps_length start endT interval hi h]
    simp
  · rw [genRows_timestamps]
    simp [List.replicate_one]

/-- Witness for C1 (amended) at the scenario input. -/
theorem gen_count_floor_witness :
    (generate_simulated_data halfStream 0 60 ["s1"] 15).length = 5 ∧
      (generate_simulated_data halfStream 0 60 ["s1"] 15).map
          Reading.timestamp = [0, 15, 30, 45, 60] := by
  have h := gen_count_floor halfStream 0 60 15 "s1" (by decide) (by decide)
  exact ⟨h.1.trans (by norm_num), h.2.trans (by decide)⟩

/-! ### Claim C8: output shape and interleaving -/

/-- C8. For `start ≤ end`, `interval ≥ 1` and a non-empty entity
list: the output length is `entities × sample instants`, the
timestamps across the output are non-decreasing, and the readings
appear, for each sample instant in order, one per entity in the call
order of the entity list. -/
theorem gen_interleaving (σ : Nat → ℚ) (start endT interval : Nat)
    (ids : List String) (h : start ≤ endT) (hi : 1 ≤ interval)
    (hids : ids ≠ []) :
    (generate_simulated_data σ start endT ids interval).length =
        ids.length * (timestamps start endT interval).length ∧
      List.Chain' (· ≤ ·) ((generate_simulated_data σ start endT ids
        interval).map Reading.timestamp) ∧
      (generate_simulated_data σ start endT ids interval).map
          (fun r => (r.timestamp, r.id)) =
        (timestamps start endT interval).flatMap
          (fun t => ids.map (fun sensor_id => (t, sensor_id))) := by
  have hef : effectiveIds ids = ids := by simp [effectiveIds, hids]
  simp only [generate_simulated_data, hef]
  refine ⟨genRows_length _ _ _ _ _, ?_, genRows_pairs _ _ _ _ _⟩
  exact (genRows_timestamps_pairwise _ _ _ _ _
    (timestamps_pairwise start endT interval hi)).chain'

/-- Witness for C8 at a concrete input: two entities, instants
0, 15, 30. -/
theorem gen_interleaving_witness :
    (generate_simulated_data halfStream 0 30 ["a", "b"] 15).length = 6 ∧
      List.Chain' (· ≤ ·) ((generate_simulated_data halfStream 0 30
        ["a", "b"] 15).map Reading.timestamp) ∧
      (generate_simulated_data halfStream 0 30 ["a", "b"] 15).map
          (fun r => (r.timestamp, r.id)) =
        [(0, "a"), (0, "b"), (15, "a"), (15, "b"), (30, "a"), (30, "b")] := by
  have h := gen_interleaving halfStream 0 30 15 ["a", "b"] (by decide)
    (by decide) (by decide)
  exact ⟨h.1.trans (by decide), h.2.1, h.2.2.trans (by decide)⟩

/-! ### Claim C6: evening voltage dampening -/

/-- C6. Every reading produced by `generate_simulated_data` has
voltage `(voltage_base + u) * 0.98` when the hour of day of its
timestamp lies in `[18, 22]`, and `voltage_base + u` otherwise, where
`u` is the reading's own `uniform(-5, 5)` draw (at some position `n`
of the draw stream) and `voltage_base` is the baseline drawn for the
reading's entity by that call. -/
theorem evening_voltage (σ : Nat → ℚ) (start endT : Nat)
    (ids : List String) (interval : Nat) (r : Reading)
    (hr : r ∈ generate_simulated_data σ start endT ids interval) :
    ∃ n : Nat, r.voltage =
      if eveningHour r.timestamp then
        (baseVoltageOf σ ids r.id + uniformVal σ (-5) 5 n) * (98 / 100)
      else baseVoltageOf σ ids r.id + uniformVal σ (-5) 5 n := by
  simp only [generate_simulated_data] at hr
  obtain ⟨t, sid, n2, _, _, rfl⟩ :=
    mem_genRows σ _ (effectiveIds ids) _ _ r hr
  refine ⟨n2, ?_⟩
  rw [readingAt_timestamp, readingAt_id, readingAt_voltage]
  rfl

/-- Witness for C6 at a concrete reading produced with the constant
1/2 draw stream at midnight (hour 0, no dampening). -/
theorem evening_voltage_witness :
    (⟨"s1", 0, 235/2, 6, "normal"⟩ : Reading) ∈
        generate_simulated_data halfStream 0 0 ["s1"] 15 ∧
      ∃ n : Nat, (⟨"s1", 0, 235/2, 6, "normal"⟩ : Reading).voltage =
        if eveningHour (⟨"s1", 0, 235/2, 6, "normal"⟩ : Reading).timestamp
        then
          (baseVoltageOf halfStream ["s1"]
              (⟨"s1", 0, 235/2, 6, "normal"⟩ : Reading).id +
            uniformVal halfStream (-5) 5 n) * (98 / 100)
        else
          baseVoltageOf halfStream ["s1"]
              (⟨"s1", 0, 235/2, 6, "normal"⟩ : Reading).id +
            uniformVal halfStream (-5) 5 n :=
  ⟨by with_unfolding_all decide,
   evening_voltage halfStream 0 0 ["s1"] 15 ⟨"s1", 0, 235/2, 6, "normal"⟩
     (by with_unfolding_all decide)⟩

/-! ### Claim C7: derived power column -/

/-- C7. Every row of the processed table of a generated series has
`power = voltage * current`, and processing an empty series yields an
empty table (the function is total, so it never raises). -/
theorem power_column (σ : Nat → ℚ) (start endT : Nat)
    (ids : List String) (interval : Nat) :
    (∀ row ∈ process_sensor_data
        (generate_simulated_data σ start endT ids interval),
      row.power = row.voltage * row.current) ∧
      process_sensor_data [] = [] :=
  ⟨fun row hrow => process_sensor_data_power _ row hrow, rfl⟩

set_option maxRecDepth 8000 in
/-- Witness for C7 at a concrete processed row. -/
theorem power_column_witness :
    (⟨"s1", 0, 235/2, 6, 705⟩ : PRow) ∈
        process_sensor_data
          (generate_simulated_data halfStream 0 0 ["s1"] 15) ∧
      (⟨"s1", 0, 235/2, 6, 705⟩ : PRow).power =
        (⟨"s1", 0, 235/2, 6, 705⟩ : PRow).voltage *
          (⟨"s1", 0, 235/2, 6, 705⟩ : PRow).current :=
  ⟨by with_unfolding_all decide,
   (power_column halfStream 0 0 ["s1"] 15).1 _
     (by with_unfolding_all decide)⟩

/-! ### Claim C10: empty entity list falls back to the default set -/

/-- C10. Passing an empty entity list behaves identically to omitting
the argument: the built-in 3-entity set is substituted, so for every
`start ≤ end` and `interval ≥ 1` the result is non-empty even with an
empty entity list. -/
theorem default_ids_substituted (σ : Nat → ℚ)
    (start endT interval : Nat) :
    generate_simulated_data σ start endT [] interval =
        generate_simulated_data σ start endT defaultSensorIds interval ∧
      (start ≤ endT → 1 ≤ interval →
        generate_simulated_data σ start endT [] interval ≠ []) := by
  have he : effectiveIds [] = defaultSensorIds := rfl
  have hd : effectiveIds defaultSensorIds = defaultSensorIds := by
    simp [effectiveIds, defaultSensorIds]
  constructor
  · simp only [generate_simulated_data, he, hd]
  · intro h hi hnil
    have hlen := congrArg List.length hnil
    simp only [generate_simulated_data, he, List.length_nil] at hlen
    rw [genRows_length, timestamps_length start endT interval hi h] at hlen
    simp [defaultSensorIds] at hlen

/-- Witness for C10 at a concrete input. -/
theorem default_ids_substituted_witness :
    generate_simulated_data halfStream 0 0 [] 15 =
        generate_simulated_data halfStream 0 0 defaultSensorIds 15 ∧
      generate_simulated_data halfStream 0 0 [] 15 ≠ [] := by
  have h := default_ids_substituted halfStream 0 0 15
  exact ⟨h.1, h.2 (by decide) (by decide)⟩
